import Mathlib

/-!
Verification of the serial command channel of the Stechoq mobile-robot
controller (source files `main_raspy.py` and `serial_monitor.py`).

The Python code is shallowly embedded as executable Lean definitions:

* Strings on the wire are Lean `String`s; interactive operator input is
  modelled as `List Char` (the code normalises it with `.strip().lower()`
  before dispatching, which we model explicitly).
* Python numbers are modelled by `JVal` (JSON values: string / int / float);
  Python floats are modelled by `PyFloat`, an exact short-decimal value whose
  `toStr` mirrors `str(float)` for such decimals (e.g. `str(float("5")) =
  "5.0"`, `str(float("2.50")) = "2.5"`).
* The timed read loops (`send_to_robot`'s response collection and
  `init_serial`'s startup collection) are modelled as fuel-bounded
  poll-and-deadline state machines over a discrete clock, one loop iteration
  per polling tick (50 ms for the response loop, 100 ms for the startup
  loop, matching the `time.sleep` quanta of the respective loops).  The
  inbound byte stream is a schedule `Nat → Option String` giving the line
  (if any) that `readline` would return at a given tick; `some ""` models
  a line that decodes to the empty string after `strip()`.
* Side effects (writes, flushes, buffer discards, sleeps, open/close) are
  recorded in explicit event traces.
-/

/-! ## Character/string utilities mirroring the Python string operations -/

/-- Whitespace characters recognised by Python's `str.strip()` / `str.split()`
(ASCII subset, the only ones that can occur in terminal input). -/
def isPyWs (c : Char) : Bool :=
  c == ' ' || c == '\t' || c == '\n' || c == '\r' || c == '\x0b' || c == '\x0c'

/-- Python `s.strip()`. -/
def pyStrip (cs : List Char) : List Char :=
  ((cs.dropWhile isPyWs).reverse.dropWhile isPyWs).reverse

/-- Python `s.lower()` (ASCII). -/
def pyLower (cs : List Char) : List Char :=
  cs.map Char.toLower

/-- Python `s.startswith(p)`. -/
def startsWith : List Char → List Char → Bool
  | _, [] => true
  | [], _ :: _ => false
  | c :: cs, p :: ps => c == p && startsWith cs ps

/-- Python `p in s` (substring containment). -/
def containsSub (pat : List Char) : List Char → Bool
  | [] => startsWith [] pat
  | c :: rest => startsWith (c :: rest) pat || containsSub pat rest

/-- Accumulator loop for `wsSplit` (current word is kept reversed). -/
def wsSplitAux : List Char → List Char → List (List Char)
  | [], cur => if cur = [] then [] else [cur.reverse]
  | c :: cs, cur =>
      if isPyWs c then
        if cur = [] then wsSplitAux cs []
        else cur.reverse :: wsSplitAux cs []
      else wsSplitAux cs (c :: cur)

/-- Python `s.split()`: split on whitespace runs, discarding empty words. -/
def wsSplit (cs : List Char) : List (List Char) :=
  wsSplitAux cs []

/-- `l[i]` as an `Option` (Python indexing that may raise `IndexError`). -/
def nth {α : Type} : List α → Nat → Option α
  | [], _ => none
  | a :: _, 0 => some a
  | _ :: l, n + 1 => nth l n

/-! ## Python floats as exact short decimals -/

/-- A Python float holding an exact short-decimal value: sign, integer part,
and the fractional digits with trailing zeros stripped (the form `repr(float)`
prints for such values). -/
structure PyFloat where
  neg : Bool
  ip : Nat
  fp : List Nat
  deriving DecidableEq, Repr

/-- Value of a fractional digit list: `[d₁, d₂, …] ↦ 0.d₁d₂…`. -/
def fracVal : List Nat → ℚ
  | [] => 0
  | d :: ds => ((d : ℚ) + fracVal ds) / 10

/-- The rational value of a `PyFloat`. -/
def PyFloat.val (x : PyFloat) : ℚ :=
  (if x.neg then -1 else 1) * ((x.ip : ℚ) + fracVal x.fp)

/-- Numeric value of a digit character. -/
def digitVal (c : Char) : Nat := c.toNat - 48

/-- Value of a list of digit characters read as a base-10 numeral. -/
def natOfDigits (cs : List Char) : Nat :=
  cs.foldl (fun acc c => acc * 10 + digitVal c) 0

/-- Drop trailing zero digits of a fractional digit list. -/
def stripTrailingZeros (ds : List Nat) : List Nat :=
  (ds.reverse.dropWhile (· == 0)).reverse

/-- `float(tok)` for an unsigned decimal numeral `digits`, `digits.digits`,
`.digits` or `digits.`; `none` when `float()` would raise `ValueError`. -/
def parseUnsignedFloat (cs : List Char) : Option PyFloat :=
  let ipcs := cs.takeWhile Char.isDigit
  let rest := cs.dropWhile Char.isDigit
  match rest with
  | [] => if ipcs.isEmpty then none else some ⟨false, natOfDigits ipcs, []⟩
  | '.' :: fcs =>
      if fcs.all Char.isDigit && !(ipcs.isEmpty && fcs.isEmpty) then
        some ⟨false, natOfDigits ipcs, stripTrailingZeros (fcs.map digitVal)⟩
      else none
  | _ => none

/-- Python `float(tok)` on a whitespace-free token, covering plain signed
decimal numerals (the grammar the operator commands use). -/
def pyFloatOfToken : List Char → Option PyFloat
  | '-' :: rest => (parseUnsignedFloat rest).map (fun x => ⟨true, x.ip, x.fp⟩)
  | '+' :: rest => parseUnsignedFloat rest
  | cs => parseUnsignedFloat cs

/-- `str(x)` for a short-decimal Python float: integer part, a dot, then the
fractional digits (or `0` when the value is integral), e.g. `"5.0"`, `"-0.5"`. -/
def PyFloat.toStr (x : PyFloat) : String :=
  (if x.neg then "-" else "") ++ toString x.ip ++ "." ++
    (if x.fp.isEmpty then "0" else String.mk (x.fp.map Nat.digitChar))

/-! ## JSON / Python values appearing in command descriptors -/

/-- A Python value as produced by `json.loads` on the command JSON (only the
shapes the robot-command senders handle). -/
inductive JVal where
  | jstr (s : String)
  | jint (n : Int)
  | jfloat (x : PyFloat)
  deriving DecidableEq, Repr

/-- Python f-string formatting `f"{v}"` of a `JVal`. -/
def JVal.fmt : JVal → String
  | .jstr s => s
  | .jint n => toString n
  | .jfloat x => x.toStr

/-- `obj.get(k)` on a parsed JSON object (association list with distinct keys). -/
def jlookup (obj : List (String × JVal)) (k : String) : Option JVal :=
  (obj.find? (fun p => p.1 == k)).map (·.2)

/-- `send_to_robot` (main_raspy.py:310-317): build the wire line
`f"{command},{value},{unit}\n"` with `cmd_data.get("command", "STOP")`,
`cmd_data.get("value", 0)`, `cmd_data.get("unit", "none")`. -/
def encodeJson (obj : List (String × JVal)) : String :=
  ((jlookup obj "command").getD (JVal.jstr "STOP")).fmt ++ "," ++
  ((jlookup obj "value").getD (JVal.jint 0)).fmt ++ "," ++
  ((jlookup obj "unit").getD (JVal.jstr "none")).fmt ++ "\n"

/-- The wire line `f"{command},{value},{unit}\n"` built by
`send_command` (serial_monitor.py:125). -/
def wire (cmd : String) (v : JVal) (unit : String) : String :=
  cmd ++ "," ++ v.fmt ++ "," ++ unit ++ "\n"

/-! ## Timed read loops (poll-and-deadline state machines)

Discrete clock: one loop iteration per polling tick.  `sched n` is the line
`readline()` returns at tick `n` (`none`: no byte waiting). -/

/-- Response-collection loop of `send_to_robot` (main_raspy.py:338-361),
one iteration per 50 ms tick: window `max_timeout = 3.0 s` = 60 ticks from
the last activity, quiet break `> 1.0 s` = 20 ticks once at least one
non-empty response has arrived.  Arguments: fuel, current tick, tick of the
last `timeout_start` reset, accumulated responses.  Returns the collected
non-empty lines (in arrival order) and the tick at which the loop stopped. -/
def respCollect (sched : Nat → Option String) : Nat → Nat → Nat → List String → List String × Nat
  | 0, now, _, acc => (acc, now)
  | fuel + 1, now, tStart, acc =>
    if now - tStart < 60 then
      match sched now with
      | some line =>
          if line = "" then respCollect sched fuel (now + 1) tStart acc
          else respCollect sched fuel (now + 1) now (acc ++ [line])
      | none =>
          if 0 < acc.length ∧ 20 < now + 1 - tStart then (acc, now + 1)
          else respCollect sched fuel (now + 1) tStart acc
    else (acc, now)

/-- Startup-message loop of `init_serial` (main_raspy.py:281-294), one
iteration per 100 ms tick: `while (time.time() - timeout_start) < 3.0`
= 30 ticks, with `timeout_start` reset on every non-empty startup line and
no quiet break. -/
def initCollect (sched : Nat → Option String) : Nat → Nat → Nat → List String → List String × Nat
  | 0, now, _, acc => (acc, now)
  | fuel + 1, now, tStart, acc =>
    if now - tStart < 30 then
      match sched now with
      | some line =>
          if line = "" then initCollect sched fuel (now + 1) tStart acc
          else initCollect sched fuel (now + 1) now (acc ++ [line])
      | none => initCollect sched fuel (now + 1) tStart acc
    else (acc, now)

/-- Modelled from the spec: the §4.4 quiet-window collection policy
(`window = 3 s`, `quiet = 1 s`) at the same 100 ms tick as `initCollect`,
for comparison with the handshake's actual startup loop.  Stops when (a)
at least one line has arrived and `quiet` (10 ticks) have passed since the
last line, or (b) the absolute window (30 ticks) has elapsed with zero
lines. -/
def qwCollectSpec (sched : Nat → Option String) : Nat → Nat → Nat → List String → List String × Nat
  | 0, now, _, acc => (acc, now)
  | fuel + 1, now, lastAct, acc =>
    if acc.length = 0 ∧ 30 ≤ now then (acc, now)
    else if 0 < acc.length ∧ 10 ≤ now - lastAct then (acc, now)
    else
      match sched now with
      | some line =>
          if line = "" then qwCollectSpec sched fuel (now + 1) lastAct acc
          else qwCollectSpec sched fuel (now + 1) now (acc ++ [line])
      | none => qwCollectSpec sched fuel (now + 1) lastAct acc

/-- The non-empty lines the schedule delivers at ticks `[a, a + n)`, in
arrival order. -/
def linesFrom (sched : Nat → Option String) (a : Nat) : Nat → List String
  | 0 => []
  | n + 1 =>
      (match sched a with
       | some l => if l = "" then [] else [l]
       | none => []) ++ linesFrom sched (a + 1) n

/-! ## Connection lifecycle: event traces, handshake, supervised send -/

/-- Observable side effects of the serial-channel code. -/
inductive Ev where
  | wrote (line : String)
  | flushed
  | discardIn
  | discardOut
  | closed
  | slept (ms : Nat)
  | openTry (port : String)
  | opened (port : String)
  deriving DecidableEq, Repr

/-- `init_serial` (main_raspy.py:245-297) with the port already determined
(`SERIAL_PORT` set): attempt the OS-level open (`openOk` tells whether
`serial.Serial(...)` succeeds); on success sleep the 3 s settle period,
discard both buffers, write the `STATUS,0,none\n` probe, sleep 0.5 s, then
run the startup-message loop; return `True` regardless of whether any
startup line arrived.  Result: (return value, event trace,
(startup lines, tick at which the startup loop stopped)). -/
def initSerial (port : String) (openOk : Bool) (sched : Nat → Option String) (fuel : Nat) :
    Bool × List Ev × (List String × Nat) :=
  if openOk then
    (true,
     [Ev.openTry port, Ev.opened port, Ev.slept 3000, Ev.discardIn, Ev.discardOut,
      Ev.wrote "STATUS,0,none\n", Ev.slept 500],
     initCollect sched fuel 0 0 [])
  else (false, [Ev.openTry port], ([], 0))

/-- State of the single serial connection owned by `main_raspy`. -/
structure RobotState where
  serOpen : Bool
  port : String
  deriving DecidableEq, Repr

/-- `send_to_robot` (main_raspy.py:305-387).  `json?` is the result of
`json.loads` (`none`: `JSONDecodeError`); `writeOk` tells whether the
`ser.write`/`ser.flush` pair succeeds; on failure the recovery path closes
the handle, sleeps the fixed 1 s backoff and calls `init_serial()` again on
the same (last-used) `SERIAL_PORT`, whose OS open succeeds iff `reopenOk`;
the triggering command is not written again.  Result: (return value, event
trace, (collected response lines, stop tick) of the response loop). -/
def sendToRobot (st : RobotState) (json? : Option (List (String × JVal)))
    (writeOk reopenOk : Bool) (respSched initSched : Nat → Option String) (fuel : Nat) :
    Bool × List Ev × (List String × Nat) :=
  if st.serOpen then
    match json? with
    | none => (false, [], ([], 0))
    | some obj =>
      let line := encodeJson obj
      if writeOk then
        (true, [Ev.wrote line, Ev.flushed], respCollect respSched fuel 0 0 [])
      else
        let r := initSerial st.port reopenOk initSched fuel
        (false, [Ev.closed, Ev.slept 1000] ++ r.2.1, ([], 0))
  else (false, [], ([], 0))

/-- The shutdown sequence of `main`'s `finally` block (main_raspy.py:930-946)
when the serial handle is open: `send_to_robot` with the STOP command,
`time.sleep(0.5)`, `ser.close()`. -/
def mainShutdown (port : String) (respSched : Nat → Option String) (fuel : Nat) : List Ev :=
  (sendToRobot ⟨true, port⟩
      (some [("command", JVal.jstr "STOP"), ("value", JVal.jint 0), ("unit", JVal.jstr "none")])
      true true respSched respSched fuel).2.1 ++ [Ev.slept 500, Ev.closed]

/-! ## Port discovery -/

/-- `GPIO_UART_PORT` (main_raspy.py:54). -/
def GPIO_UART_PORT : String := "/dev/ttyS0"

/-- `GPIO_UART_ENABLE` (main_raspy.py:55). -/
def GPIO_UART_ENABLE : Bool := false

/-- One entry of `serial.tools.list_ports.comports()` (`description` /
`manufacturer` empty when Python would have `None`). -/
structure PortInfo where
  device : String
  description : String
  manufacturer : String
  deriving DecidableEq, Repr

/-- Whether a port with the given device path occurs in the enumerated list. -/
def present (ports : List PortInfo) (name : String) : Bool :=
  ports.any (fun q => q.device == name)

/-- The nested priority loop `for port_name in priority_ports: for port in
ports: ...` of both discovery functions: first priority path present in the
enumeration, scanning the priority list outermost. -/
def priorityScan : List String → List PortInfo → Option String
  | [], _ => none
  | p :: ps, ports => if present ports p then some p else priorityScan ps ports

/-- `priority_ports` of `find_esp32_port_rpi` (main_raspy.py:191). -/
def priority_ports_rpi : List String :=
  [GPIO_UART_PORT, "/dev/ttyUSB0", "/dev/ttyUSB1", "/dev/ttyACM0", "/dev/ttyACM1"]

/-- ESP32 keyword lists of main_raspy.py:206,209. -/
def descKeywords : List String :=
  ["ch340", "cp210", "usb serial", "uart", "silicon labs", "usb2.0-serial"]

/-- Manufacturer keywords of main_raspy.py:209. -/
def mfrKeywords : List String :=
  ["qinheng", "silicon", "ftdi", "1a86"]

/-- The per-port keyword test of the description/manufacturer/generic loop
(main_raspy.py:201-215): any description keyword in the lowered description,
any manufacturer keyword in the lowered manufacturer string, or `ttyUSB` /
`ttyACM` in the device path. -/
def portMatches (q : PortInfo) : Bool :=
  descKeywords.any (fun k => containsSub k.data (pyLower q.description.data)) ||
  mfrKeywords.any (fun k => containsSub k.data (pyLower q.manufacturer.data)) ||
  (containsSub "ttyUSB".data q.device.data || containsSub "ttyACM".data q.device.data)

/-- `find_esp32_port_rpi` (main_raspy.py:174-228).  `gpioEnable` is
`GPIO_UART_ENABLE`, `gpioAvail` the result of `check_gpio_uart_available()`;
`ports` the enumeration.  Order: GPIO UART shortcut, priority paths, keyword
match, first enumerated port, otherwise `None`. -/
def find_esp32_port_rpi (gpioEnable gpioAvail : Bool) (ports : List PortInfo) : Option String :=
  if gpioEnable && gpioAvail then some GPIO_UART_PORT
  else
    match priorityScan priority_ports_rpi ports with
    | some p => some p
    | none =>
      match ports.find? portMatches with
      | some q => some q.device
      | none =>
        match ports with
        | [] => none
        | q :: _ => some q.device

/-- `priority_ports` of `serial_monitor.find_esp32_port` (serial_monitor.py:33). -/
def priority_ports_mon : List String :=
  ["/dev/ttyS0", "/dev/ttyUSB0", "/dev/ttyUSB1", "/dev/ttyACM0", "/dev/ttyACM1"]

/-- `find_esp32_port` (serial_monitor.py:28-59).  `ttyS0Exists` is
`os.path.exists('/dev/ttyS0')`.  Order: GPIO UART node, the USB tail
`priority_ports[1:]`, first enumerated port, otherwise `None`. -/
def find_esp32_port (ttyS0Exists : Bool) (ports : List PortInfo) : Option String :=
  if ttyS0Exists then some "/dev/ttyS0"
  else
    match priorityScan (priority_ports_mon.drop 1) ports with
    | some p => some p
    | none =>
      match ports with
      | [] => none
      | q :: _ => some q.device

/-! ## Interactive dispatcher and operator session (serial_monitor.py) -/

/-- Observable effects of one interactive-mode step. -/
inductive MEv where
  | sent (line : String)
  | errMsg
  | helpShown
  | cleared
  | closedConn
  deriving DecidableEq, Repr

/-- Keyword `help` as the char list the dispatcher compares against. -/
def kwHelp : List Char := ['h', 'e', 'l', 'p']

/-- Keyword `clear`. -/
def kwClear : List Char := ['c', 'l', 'e', 'a', 'r']

/-- Keyword `status`. -/
def kwStatus : List Char := ['s', 't', 'a', 't', 'u', 's']

/-- Keyword `stop`. -/
def kwStop : List Char := ['s', 't', 'o', 'p']

/-- Verb prefix `forward ` (with trailing space, as in `startswith('forward ')`). -/
def kwForwardSp : List Char := ['f', 'o', 'r', 'w', 'a', 'r', 'd', ' ']

/-- Verb prefix `backward `. -/
def kwBackwardSp : List Char := ['b', 'a', 'c', 'k', 'w', 'a', 'r', 'd', ' ']

/-- Verb prefix `left `. -/
def kwLeftSp : List Char := ['l', 'e', 'f', 't', ' ']

/-- Verb prefix `right `. -/
def kwRightSp : List Char := ['r', 'i', 'g', 'h', 't', ' ']

/-- Verb prefix `speed `. -/
def kwSpeedSp : List Char := ['s', 'p', 'e', 'e', 'd', ' ']

/-- Verb prefix `raw `. -/
def kwRawSp : List Char := ['r', 'a', 'w', ' ']

/-- A movement branch, e.g. `forward`: `float(user_input.split()[1])`, then
`send_command(cmd, distance, unit)`; `IndexError`/`ValueError` are caught and
print a usage message without sending. -/
def moveCmd (input : List Char) (cmd unit : String) : List MEv :=
  match nth (wsSplit input) 1 with
  | none => [MEv.errMsg]
  | some tok =>
    match pyFloatOfToken tok with
    | none => [MEv.errMsg]
    | some v => [MEv.sent (wire cmd (JVal.jfloat v) unit)]

/-- The `speed` branch (serial_monitor.py:256-264): parse the percent value,
send only when `0 <= speed <= 100`, otherwise report the range error. -/
def speedCmd (input : List Char) : List MEv :=
  match nth (wsSplit input) 1 with
  | none => [MEv.errMsg]
  | some tok =>
    match pyFloatOfToken tok with
    | none => [MEv.errMsg]
    | some v =>
      if 0 ≤ v.val ∧ v.val ≤ 100 then [MEv.sent (wire "SPEED" (JVal.jfloat v) "percent")]
      else [MEv.errMsg]

/-- `send_raw` (serial_monitor.py:137-156): append a newline when the payload
does not already end with one, then write the bytes unchanged. -/
def rawLineOf (payload : List Char) : String :=
  String.mk payload ++ (if payload.getLast? = some '\n' then "" else "\n")

/-- The `elif` chain of `interactive_mode` (serial_monitor.py:224-270) on the
already-normalised input (`input().strip().lower()`); `quit`/`exit`/`q` and
the empty input are handled by the session loop, not here. -/
def dispatch (input : List Char) : List MEv :=
  if input = kwHelp then [MEv.helpShown]
  else if input = kwClear then [MEv.cleared]
  else if input = kwStatus then [MEv.sent (wire "STATUS" (JVal.jint 0) "none")]
  else if input = kwStop then [MEv.sent (wire "STOP" (JVal.jint 0) "none")]
  else if startsWith input kwForwardSp then moveCmd input "FORWARD" "meter"
  else if startsWith input kwBackwardSp then moveCmd input "BACKWARD" "meter"
  else if startsWith input kwLeftSp then moveCmd input "LEFT" "degree"
  else if startsWith input kwRightSp then moveCmd input "RIGHT" "degree"
  else if startsWith input kwSpeedSp then speedCmd input
  else if startsWith input kwRawSp then [MEv.sent (rawLineOf (input.drop 4))]
  else [MEv.errMsg]

/-- `user_input = input("ESP32> ").strip().lower()` (serial_monitor.py:217). -/
def normalizeInput (raw : List Char) : List Char :=
  pyLower (pyStrip raw)

/-- One raw operator line, as processed by `interactive_mode`. -/
def processInput (raw : List Char) : List MEv :=
  dispatch (normalizeInput raw)

/-- The `interactive_mode` session loop (serial_monitor.py:215-282) on a list
of operator input lines; the list ending models `EOFError` /
`KeyboardInterrupt`.  Empty input continues, `quit`/`exit`/`q` breaks; every
exit path runs the `finally` block, which only calls `disconnect()` (join the
monitor thread and close the handle). -/
def session : List (List Char) → List MEv
  | [] => [MEv.closedConn]
  | raw :: rest =>
    let l := normalizeInput raw
    if l = [] then session rest
    else if l = ['q', 'u', 'i', 't'] ∨ l = ['e', 'x', 'i', 't'] ∨ l = ['q'] then [MEv.closedConn]
    else dispatch l ++ session rest

/-! ## Theorems -/

/-- A stream delivering one response line at tick 4 (0.2 s into the loop). -/
def schedOneLine : Nat → Option String := fun n => if n = 4 then some "OK" else none

/-- A stream delivering lines at ticks 4 and 22 (0.2 s and 1.1 s): the second
line arrives inside the quiet window opened by the first. -/
def schedTwoLines : Nat → Option String := fun n =>
  if n = 4 then some "R1" else if n = 22 then some "R2" else none

/-- A stream delivering one startup line at tick 2 (0.2 s, at the startup
loop's 100 ms tick). -/
def schedBoot : Nat → Option String := fun n =>
  if n = 2 then some "ESP32 Robot Ready" else none

/-- Invariant of the response-collection loop: whatever the schedule and the
fuel, the returned list is the accumulator followed by exactly the non-empty
lines the schedule delivered between the current tick and the stop tick, in
arrival order. -/
theorem respCollect_linesFrom (sched : Nat → Option String) :
    ∀ (fuel now tStart : Nat) (acc : List String),
      (respCollect sched fuel now tStart acc).1
        = acc ++ linesFrom sched now ((respCollect sched fuel now tStart acc).2 - now)
      ∧ now ≤ (respCollect sched fuel now tStart acc).2 := by
  intro fuel
  induction fuel with
  | zero =>
    intro now tStart acc
    simp [respCollect, linesFrom]
  | succ fuel ih =>
    intro now tStart acc
    by_cases hw : now - tStart < 60
    · cases hs : sched now with
      | some line =>
        by_cases hl : line = ""
        · have h := ih (now + 1) tStart acc
          simp only [respCollect, if_pos hw, hs, if_pos hl]
          refine ⟨?_, by omega⟩
          have hstep : (respCollect sched fuel (now + 1) tStart acc).2 - now
              = ((respCollect sched fuel (now + 1) tStart acc).2 - (now + 1)) + 1 := by omega
          rw [hstep, linesFrom, hs]
          simp only [if_pos hl, List.nil_append]
          exact h.1
        · have h := ih (now + 1) now (acc ++ [line])
          simp only [respCollect, if_pos hw, hs, if_neg hl]
          refine ⟨?_, by omega⟩
          have hstep : (respCollect sched fuel (now + 1) now (acc ++ [line])).2 - now
              = ((respCollect sched fuel (now + 1) now (acc ++ [line])).2 - (now + 1)) + 1 := by
            omega
          rw [hstep, linesFrom, hs]
          simp only [if_neg hl]
          rw [h.1]
          simp
      | none =>
        by_cases hq : 0 < acc.length ∧ 20 < now + 1 - tStart
        · simp only [respCollect, if_pos hw, hs, if_pos hq]
          refine ⟨?_, by omega⟩
          rw [show now + 1 - now = 1 by omega, linesFrom, hs]
          simp [linesFrom]
        · have h := ih (now + 1) tStart acc
          simp only [respCollect, if_pos hw, hs, if_neg hq]
          refine ⟨?_, by omega⟩
          have hstep : (respCollect sched fuel (now + 1) tStart acc).2 - now
              = ((respCollect sched fuel (now + 1) tStart acc).2 - (now + 1)) + 1 := by omega
          rw [hstep, linesFrom, hs]
          simp only [List.nil_append]
          exact h.1
    · simp [respCollect, if_neg hw, linesFrom]

/-- Invariant of the startup-message loop of `init_serial`: same collection
property as `respCollect_linesFrom`, for the loop without the quiet break. -/
theorem initCollect_linesFrom (sched : Nat → Option String) :
    ∀ (fuel now tStart : Nat) (acc : List String),
      (initCollect sched fuel now tStart acc).1
        = acc ++ linesFrom sched now ((initCollect sched fuel now tStart acc).2 - now)
      ∧ now ≤ (initCollect sched fuel now tStart acc).2 := by
  intro fuel
  induction fuel with
  | zero =>
    intro now tStart acc
    simp [initCollect, linesFrom]
  | succ fuel ih =>
    intro now tStart acc
    by_cases hw : now - tStart < 30
    · cases hs : sched now with
      | some line =>
        by_cases hl : line = ""
        · have h := ih (now + 1) tStart acc
          simp only [initCollect, if_pos hw, hs, if_pos hl]
          refine ⟨?_, by omega⟩
          have hstep : (initCollect sched fuel (now + 1) tStart acc).2 - now
              = ((initCollect sched fuel (now + 1) tStart acc).2 - (now + 1)) + 1 := by omega
          rw [hstep, linesFrom, hs]
          simp only [if_pos hl, List.nil_append]
          exact h.1
        · have h := ih (now + 1) now (acc ++ [line])
          simp only [initCollect, if_pos hw, hs, if_neg hl]
          refine ⟨?_, by omega⟩
          have hstep : (initCollect sched fuel (now + 1) now (acc ++ [line])).2 - now
              = ((initCollect sched fuel (now + 1) now (acc ++ [line])).2 - (now + 1)) + 1 := by
            omega
          rw [hstep, linesFrom, hs]
          simp only [if_neg hl]
          rw [h.1]
          simp
      | none =>
        have h := ih (now + 1) tStart acc
        simp only [initCollect, if_pos hw, hs]
        refine ⟨?_, by omega⟩
        have hstep : (initCollect sched fuel (now + 1) tStart acc).2 - now
            = ((initCollect sched fuel (now + 1) tStart acc).2 - (now + 1)) + 1 := by omega
        rw [hstep, linesFrom, hs]
        simp only [List.nil_append]
        exact h.1
    · simp [initCollect, if_neg hw, linesFrom]

/-- **C1.** The response-collection loop of `send_to_robot` appends each
non-empty decoded line in arrival order (first conjunct, for every schedule,
fuel and state); a single line arriving at tick 4 (0.2 s) ends collection at
tick 25 (1.25 s ≈ 1.2 s, not the full 3 s window), because each line resets
the last-activity deadline (a second line at tick 22 extends collection to
tick 43); and with zero lines the loop stops with an empty list at tick 60
(the absolute 3 s window, at 50 ms per tick). -/
theorem claim_C1_response_collection :
    (∀ (sched : Nat → Option String) (fuel now tStart : Nat) (acc : List String),
        (respCollect sched fuel now tStart acc).1
          = acc ++ linesFrom sched now ((respCollect sched fuel now tStart acc).2 - now))
    ∧ respCollect schedOneLine 200 0 0 [] = (["OK"], 25)
    ∧ respCollect (fun _ => none) 200 0 0 [] = ([], 60)
    ∧ respCollect schedTwoLines 200 0 0 [] = (["R1", "R2"], 43) := by
  refine ⟨fun sched fuel now tStart acc => (respCollect_linesFrom sched fuel now tStart acc).1,
    ?_, ?_, ?_⟩ <;> decide

/-- **C3 (counterexample).** The claim says the startup-line collection phase
of the handshake lasts "up to 3 seconds" and follows the §4.4 quiet-window
policy.  On a stream whose only startup line arrives at 0.2 s (tick 2 of the
100 ms clock), the actual loop of `init_serial` stops at tick 32 = 3.2 s —
it resets its whole 3 s deadline on every line, so it exceeds 3 s — whereas
the §4.4 policy (`quiet` = 1 s) would stop at tick 12 = 1.2 s. -/
theorem claim_C3_counterexample :
    initCollect schedBoot 100 0 0 [] = (["ESP32 Robot Ready"], 32)
    ∧ ¬((initCollect schedBoot 100 0 0 []).2 ≤ 30)
    ∧ qwCollectSpec schedBoot 100 0 0 [] = (["ESP32 Robot Ready"], 12) := by
  refine ⟨by decide, by decide, by decide⟩

/-- **C3 (amended).** For every endpoint on which the OS-level open succeeds,
`init_serial` performs, in order: the fixed 3 s settle sleep, a discard of
both buffer directions, the `STATUS,0,none\n` probe write (and a 0.5 s
sleep), then a startup-line collection loop that stops only once 3 seconds
have passed with no line, resetting that deadline on every line (so it lasts
exactly 3 s when the device never replies — third conjunct — and can exceed
3 s otherwise); it collects exactly the arriving non-empty lines in order
(second conjunct) and reports the connection established (returns `true`)
regardless of whether the device ever replied. -/
theorem claim_C3_handshake_amended :
    (∀ (port : String) (sched : Nat → Option String) (fuel : Nat),
        initSerial port true sched fuel
          = (true,
             [Ev.openTry port, Ev.opened port, Ev.slept 3000, Ev.discardIn, Ev.discardOut,
              Ev.wrote "STATUS,0,none\n", Ev.slept 500],
             initCollect sched fuel 0 0 []))
    ∧ (∀ (sched : Nat → Option String) (fuel : Nat),
        (initCollect sched fuel 0 0 []).1
          = linesFrom sched 0 (initCollect sched fuel 0 0 []).2)
    ∧ initCollect (fun _ => none) 100 0 0 [] = ([], 30) := by
  refine ⟨fun port sched fuel => rfl, fun sched fuel => ?_, by decide⟩
  have h := (initCollect_linesFrom sched fuel 0 0 []).1
  simpa using h

/-- Number of occurrences of an event in a trace. -/
def countEv (e : Ev) : List Ev → Nat
  | [] => 0
  | x :: xs => (if x = e then 1 else 0) + countEv e xs

/-- **C2.** When the write/flush of a command fails on the open connection,
`send_to_robot` performs exactly one recovery cycle — one close of the
current handle, one fixed 1 s backoff sleep, one reopen attempt on the
last-used endpoint (`SERIAL_PORT` is already set, so `init_serial` does not
re-run discovery) — whether or not the reopen succeeds; the call returns
`False`, and no line other than the handshake's own `STATUS,0,none\n` probe
is ever written during the recovery, so the triggering command is not
re-sent. -/
theorem claim_C2_reconnect_supervisor (port : String) (obj : List (String × JVal))
    (reopenOk : Bool) (respSched initSched : Nat → Option String) (fuel : Nat) :
    (sendToRobot ⟨true, port⟩ (some obj) false reopenOk respSched initSched fuel).1 = false
    ∧ (sendToRobot ⟨true, port⟩ (some obj) false reopenOk respSched initSched fuel).2.1
        = [Ev.closed, Ev.slept 1000] ++ (initSerial port reopenOk initSched fuel).2.1
    ∧ countEv Ev.closed
        (sendToRobot ⟨true, port⟩ (some obj) false reopenOk respSched initSched fuel).2.1 = 1
    ∧ countEv (Ev.slept 1000)
        (sendToRobot ⟨true, port⟩ (some obj) false reopenOk respSched initSched fuel).2.1 = 1
    ∧ countEv (Ev.openTry port)
        (sendToRobot ⟨true, port⟩ (some obj) false reopenOk respSched initSched fuel).2.1 = 1
    ∧ (∀ l : String, l ≠ "STATUS,0,none\n" →
        countEv (Ev.wrote l)
          (sendToRobot ⟨true, port⟩ (some obj) false reopenOk respSched initSched fuel).2.1
            = 0) := by
  cases reopenOk with
  | false =>
    refine ⟨rfl, rfl, by simp [sendToRobot, initSerial, countEv],
      by simp [sendToRobot, initSerial, countEv],
      by simp [sendToRobot, initSerial, countEv], ?_⟩
    intro l hl
    simp [sendToRobot, initSerial, countEv]
  | true =>
    refine ⟨rfl, rfl, by simp [sendToRobot, initSerial, countEv],
      by simp [sendToRobot, initSerial, countEv],
      by simp [sendToRobot, initSerial, countEv], ?_⟩
    intro l hl
    simp [sendToRobot, initSerial, countEv, hl, Ne.symm hl]

/-- Witness for C2: a concrete failed `FORWARD,5,meter` write on
`/dev/ttyUSB0` returns `False` and the command line is never written. -/
theorem claim_C2_witness :
    (sendToRobot ⟨true, "/dev/ttyUSB0"⟩
        (some [("command", JVal.jstr "FORWARD"), ("value", JVal.jint 5),
               ("unit", JVal.jstr "meter")])
        false true (fun _ => none) (fun _ => none) 100).1 = false
    ∧ countEv (Ev.wrote "FORWARD,5,meter\n")
        (sendToRobot ⟨true, "/dev/ttyUSB0"⟩
          (some [("command", JVal.jstr "FORWARD"), ("value", JVal.jint 5),
                 ("unit", JVal.jstr "meter")])
          false true (fun _ => none) (fun _ => none) 100).2.1 = 0 := by
  have h := claim_C2_reconnect_supervisor "/dev/ttyUSB0"
    [("command", JVal.jstr "FORWARD"), ("value", JVal.jint 5), ("unit", JVal.jstr "meter")]
    true (fun _ => none) (fun _ => none) 100
  exact ⟨h.1, h.2.2.2.2.2 "FORWARD,5,meter\n" (by decide)⟩

/-- **C4 (counterexample).** The interactive input `forward 5` is parsed via
`float(...)`, so the line actually transmitted is `FORWARD,5.0,meter\n`, not
`FORWARD,5,meter\n` as the claim states for both paths. -/
theorem claim_C4_counterexample :
    processInput "forward 5".data = [MEv.sent "FORWARD,5.0,meter\n"]
    ∧ "FORWARD,5.0,meter\n" ≠ "FORWARD,5,meter\n" := by
  refine ⟨by decide, by decide⟩

/-- **C4 (amended).** A FORWARD/5/meter descriptor arriving as JSON on the
voice path (where `json.loads` yields the integer 5) is encoded and written
as exactly `FORWARD,5,meter\n`; the interactive input `forward 5`, whose
argument `send_command` receives as the float `5.0`, is transmitted as
`FORWARD,5.0,meter\n`. -/
theorem claim_C4_encode_amended :
    encodeJson [("command", JVal.jstr "FORWARD"), ("value", JVal.jint 5),
                ("unit", JVal.jstr "meter")] = "FORWARD,5,meter\n"
    ∧ (sendToRobot ⟨true, "/dev/ttyUSB0"⟩
        (some [("command", JVal.jstr "FORWARD"), ("value", JVal.jint 5),
               ("unit", JVal.jstr "meter")])
        true true (fun _ => none) (fun _ => none) 100).2.1
        = [Ev.wrote "FORWARD,5,meter\n", Ev.flushed]
    ∧ processInput "forward 5".data = [MEv.sent "FORWARD,5.0,meter\n"] := by
  refine ⟨by decide, by decide, by decide⟩

/-- **C5.** `interactive_mode` lowercases every input line
(`input("ESP32> ").strip().lower()`) before dispatching, so the documented
example `raw STATUS,0,none` transmits `status,0,none\n` — not the claimed
unmodified `STATUS,0,none\n` (the remote protocol's commands are uppercase,
and the code's own help text promises `raw <data>` sends the data as is). -/
theorem claim_C5_raw_lowercased :
    processInput "raw STATUS,0,none".data = [MEv.sent "status,0,none\n"]
    ∧ "status,0,none\n" ≠ "STATUS,0,none\n" := by
  refine ⟨by decide, by decide⟩

/-- The last event of an interactive-session trace. -/
def lastEvent : List MEv → Option MEv
  | [] => none
  | [e] => some e
  | _ :: e :: es => lastEvent (e :: es)

/-- `lastEvent` looks only at the last nonempty segment. -/
theorem lastEvent_append (a b : List MEv) (hb : b ≠ []) :
    lastEvent (a ++ b) = lastEvent b := by
  induction a with
  | nil => rfl
  | cons x a ih =>
    cases hab : a ++ b with
    | nil => exact absurd (List.append_eq_nil.mp hab).2 hb
    | cons y ys =>
      simp only [List.cons_append, hab, lastEvent]
      rw [← hab, ih]

/-- Every session trace of the operator CLI ends with the `disconnect()`
close, whatever the operator typed. -/
theorem session_lastEvent (inputs : List (List Char)) :
    lastEvent (session inputs) = some MEv.closedConn := by
  induction inputs with
  | nil => rfl
  | cons raw rest ih =>
    have hne : session rest ≠ [] := by
      intro hnil
      rw [hnil] at ih
      cases ih
    by_cases h0 : normalizeInput raw = []
    · simpa [session, h0] using ih
    · by_cases hq : normalizeInput raw = ['q', 'u', 'i', 't']
          ∨ normalizeInput raw = ['e', 'x', 'i', 't'] ∨ normalizeInput raw = ['q']
      · simp [session, h0, hq]
        rfl
      · simp only [session, if_neg h0, if_neg hq]
        rw [lastEvent_append _ _ hne, ih]

/-- **C6 (counterexample).** Exiting the operator CLI with `quit` produces
only the disconnect: no `STOP,0,none\n` (nor any other line) is sent over
the serial link before the connection is closed, contrary to the claim. -/
theorem claim_C6_counterexample :
    session ["quit".data] = [MEv.closedConn]
    ∧ MEv.sent "STOP,0,none\n" ∉ session ["quit".data] := by
  refine ⟨by decide, by decide⟩

/-- **C6 (amended).** On every exit of the operator CLI session — quit/exit
command, end of input, or interrupt — the channel closes the connection as
its final action without sending a STOP command (a bare `quit` session
performs only the close); the voice controller's shutdown path
(`main`'s `finally` block), by contrast, does send `STOP,0,none\n` and flush
it before closing. -/
theorem claim_C6_exit_amended :
    (∀ inputs : List (List Char), lastEvent (session inputs) = some MEv.closedConn)
    ∧ session ["quit".data] = [MEv.closedConn]
    ∧ (∀ (port : String) (respSched : Nat → Option String) (fuel : Nat),
        mainShutdown port respSched fuel
          = [Ev.wrote "STOP,0,none\n", Ev.flushed, Ev.slept 500, Ev.closed]) := by
  refine ⟨session_lastEvent, by decide, fun port respSched fuel => rfl⟩

/-- **C7 (counterexample).** The voice/AI path performs no range validation:
a JSON command `{"command": "SPEED", "value": 150, "unit": "percent"}` is
encoded and written to the serial link as `SPEED,150,percent\n` even though
150 lies outside `[0, 100]`, refuting the claimed data-model invariant for
every line written. -/
theorem claim_C7_counterexample :
    (sendToRobot ⟨true, "/dev/ttyUSB0"⟩
        (some [("command", JVal.jstr "SPEED"), ("value", JVal.jint 150),
               ("unit", JVal.jstr "percent")])
        true true (fun _ => none) (fun _ => none) 100).2.1
      = [Ev.wrote "SPEED,150,percent\n", Ev.flushed]
    ∧ ¬((150 : Int) ≤ 100) := by
  refine ⟨by decide, by decide⟩

/-- `s.split()` of a whitespace-free word appended to a pending word. -/
theorem wsSplitAux_nows (tok : List Char) (hws : tok.all (fun c => !(isPyWs c)) = true) :
    ∀ cur : List Char, ¬(tok = [] ∧ cur = []) → wsSplitAux tok cur = [cur.reverse ++ tok] := by
  induction tok with
  | nil =>
    intro cur h
    have hc : ¬(cur = []) := fun hc => h ⟨rfl, hc⟩
    simp [wsSplitAux, hc]
  | cons c cs ih =>
    intro cur h
    simp only [List.all_cons, Bool.and_eq_true, Bool.not_eq_true'] at hws
    simp only [wsSplitAux, hws.1, Bool.false_eq_true, if_false]
    rw [ih hws.2 (c :: cur) (by simp)]
    simp

/-- `("speed " + tok).split()` for a nonempty whitespace-free token. -/
theorem wsSplit_speed (tok : List Char) (hne : tok ≠ [])
    (hws : tok.all (fun c => !(isPyWs c)) = true) :
    wsSplit (kwSpeedSp ++ tok) = [['s', 'p', 'e', 'e', 'd'], tok] := by
  simp only [wsSplit, kwSpeedSp, List.cons_append, List.nil_append]
  simp only [wsSplitAux, isPyWs]
  norm_num
  rw [wsSplitAux_nows tok hws [] (fun hx => hne hx.1)]
  simp

/-- Any input of the form `speed <rest>` falls through the earlier `elif`
branches of the dispatcher and lands in the `speed` branch. -/
theorem dispatch_speed (tok : List Char) :
    dispatch (kwSpeedSp ++ tok) = speedCmd (kwSpeedSp ++ tok) := by
  simp [dispatch, kwSpeedSp, kwHelp, kwClear, kwStatus, kwStop, kwForwardSp, kwBackwardSp,
    kwLeftSp, kwRightSp, startsWith]

/-- Evaluation of the `speed` branch on `speed <tok>` for a nonempty
whitespace-free token: parse the token, then gate on `0 <= speed <= 100`. -/
theorem speedCmd_eval (tok : List Char) (hne : tok ≠ [])
    (hws : tok.all (fun c => !(isPyWs c)) = true) :
    speedCmd (kwSpeedSp ++ tok)
      = match pyFloatOfToken tok with
        | none => [MEv.errMsg]
        | some v =>
            if 0 ≤ v.val ∧ v.val ≤ 100
            then [MEv.sent (wire "SPEED" (JVal.jfloat v) "percent")]
            else [MEv.errMsg] := by
  unfold speedCmd
  rw [wsSplit_speed tok hne hws]
  rfl

/-- **C8.** For every interactive `speed` command whose numeric argument
parses to a value outside `[0, 100]`, the dispatcher's only effect is the
range-error message reported to the operator: the resulting event list is
exactly `[errMsg]`, containing no `sent` event, so no bytes are written to
the serial link. -/
theorem claim_C8_speed_range (tok : List Char) (v : PyFloat)
    (hne : tok ≠ []) (hws : tok.all (fun c => !(isPyWs c)) = true)
    (hv : pyFloatOfToken tok = some v)
    (hout : ¬(0 ≤ v.val ∧ v.val ≤ 100)) :
    dispatch (kwSpeedSp ++ tok) = [MEv.errMsg] := by
  rw [dispatch_speed tok, speedCmd_eval tok hne hws, hv]
  simp only [if_neg hout]

/-- Witness for C8: the concrete out-of-range input `speed 150` produces
only the error message. -/
theorem claim_C8_witness :
    dispatch (kwSpeedSp ++ ['1', '5', '0']) = [MEv.errMsg] :=
  claim_C8_speed_range ['1', '5', '0'] ⟨false, 150, []⟩
    (by decide) (by decide) (by decide) (by norm_num [PyFloat.val, fracVal])

/-- **C7 (amended).** The SPEED range invariant is enforced only on the
interactive path: a `speed` line that results in a transmitted
`SPEED,…,percent` command necessarily carried a value in `[0, 100]` (second
conjunct), while the voice/AI path transmits whatever numeric value the JSON
carried, with no validation — for every integer `n`, in range or not, the
line `SPEED,<n>,percent\n` is written (first conjunct). -/
theorem claim_C7_speed_invariant_amended :
    (∀ (port : String) (n : Int) (s i : Nat → Option String) (fuel : Nat),
        (sendToRobot ⟨true, port⟩
            (some [("command", JVal.jstr "SPEED"), ("value", JVal.jint n),
                   ("unit", JVal.jstr "percent")])
            true true s i fuel).2.1
          = [Ev.wrote ("SPEED" ++ "," ++ toString n ++ "," ++ "percent" ++ "\n"), Ev.flushed])
    ∧ (∀ (tok : List Char) (v : PyFloat),
        tok ≠ [] → tok.all (fun c => !(isPyWs c)) = true →
        pyFloatOfToken tok = some v →
        dispatch (kwSpeedSp ++ tok) = [MEv.sent (wire "SPEED" (JVal.jfloat v) "percent")] →
        0 ≤ v.val ∧ v.val ≤ 100) := by
  constructor
  · intro port n s i fuel
    rfl
  · intro tok v hne hws hv hsent
    rw [dispatch_speed tok, speedCmd_eval tok hne hws, hv] at hsent
    by_cases hr : 0 ≤ v.val ∧ v.val ≤ 100
    · exact hr
    · simp [hr] at hsent

/-- Witness for C7: the unchecked voice path transmits `SPEED,150,percent`,
and the interactive `speed 75` — which is transmitted — is indeed in range. -/
theorem claim_C7_witness :
    (sendToRobot ⟨true, "/dev/ttyUSB0"⟩
        (some [("command", JVal.jstr "SPEED"), ("value", JVal.jint 150),
               ("unit", JVal.jstr "percent")])
        true true (fun _ => none) (fun _ => none) 100).2.1
      = [Ev.wrote ("SPEED" ++ "," ++ toString (150 : Int) ++ "," ++ "percent" ++ "\n"), Ev.flushed]
    ∧ (0 ≤ (⟨false, 75, []⟩ : PyFloat).val ∧ (⟨false, 75, []⟩ : PyFloat).val ≤ 100) := by
  have h := claim_C7_speed_invariant_amended
  have hd : dispatch (kwSpeedSp ++ ['7', '5'])
      = [MEv.sent (wire "SPEED" (JVal.jfloat ⟨false, 75, []⟩) "percent")] := by
    rw [dispatch_speed, speedCmd_eval ['7', '5'] (by decide) (by decide)]
    have hv : pyFloatOfToken ['7', '5'] = some ⟨false, 75, []⟩ := by decide
    rw [hv]
    dsimp only
    rw [if_pos (by norm_num [PyFloat.val, fracVal])]
  exact ⟨h.1 "/dev/ttyUSB0" 150 (fun _ => none) (fun _ => none) 100,
    h.2 ['7', '5'] ⟨false, 75, []⟩ (by decide) (by decide) (by decide) hd⟩

/-- Presence of a device path in the enumeration is invariant under
permutation of the enumerated list. -/
theorem present_perm {ports ports' : List PortInfo}
    (h : List.Perm ports ports') (name : String) :
    present ports name = present ports' name := by
  have step : ∀ {l l' : List PortInfo}, List.Perm l l' →
      present l name = true → present l' name = true := by
    intro l l' hp hl
    simp only [present, List.any_eq_true] at hl ⊢
    obtain ⟨x, hx, hq⟩ := hl
    exact ⟨x, hp.mem_iff.mp hx, hq⟩
  cases hq : present ports name
  · cases hq' : present ports' name
    · rfl
    · exact absurd (step h.symm hq') (by simp [hq])
  · exact (step h hq).symm

/-- `List.find?` only depends on the values of the predicate on the list. -/
theorem find?_congr {α : Type} (f g : α → Bool) :
    ∀ l : List α, (∀ x ∈ l, f x = g x) → l.find? f = l.find? g := by
  intro l
  induction l with
  | nil => intro _; rfl
  | cons a l ih =>
    intro h
    have ha := h a (by simp)
    cases hf : f a with
    | true => rw [List.find?_cons_of_pos _ hf, List.find?_cons_of_pos _ (ha ▸ hf)]
    | false =>
      rw [List.find?_cons_of_neg _ (by simp [hf]),
        List.find?_cons_of_neg _ (by simp [← ha, hf])]
      exact ih (fun x hx => h x (by simp [hx]))

/-- The nested priority loop returns the first priority path present in the
enumeration. -/
theorem priorityScan_eq_find (prio : List String) (ports : List PortInfo) :
    priorityScan prio ports = prio.find? (present ports) := by
  induction prio with
  | nil => rfl
  | cons p ps ih =>
    cases hp : present ports p
    · rw [List.find?_cons_of_neg _ (by simp [hp])]
      simpa [priorityScan, hp] using ih
    · rw [List.find?_cons_of_pos _ hp]
      simp [priorityScan, hp]

/-- `find_esp32_port_rpi` on any permutation of an enumeration containing a
priority-listed path returns the first (highest-priority) listed path
present. -/
theorem find_rpi_priority (g : Bool) (ports ports' : List PortInfo)
    (hex : ∃ p ∈ priority_ports_rpi, present ports p = true)
    (hperm : List.Perm ports ports') :
    find_esp32_port_rpi GPIO_UART_ENABLE g ports'
      = priority_ports_rpi.find? (present ports) := by
  have hcong : priority_ports_rpi.find? (present ports')
      = priority_ports_rpi.find? (present ports) :=
    find?_congr _ _ _ (fun x _ => (present_perm hperm x).symm)
  have hsome : (priority_ports_rpi.find? (present ports)).isSome := by
    obtain ⟨p, hp, hpres⟩ := hex
    exact List.find?_isSome.mpr ⟨p, hp, hpres⟩
  obtain ⟨p₀, hp₀⟩ := Option.isSome_iff_exists.mp hsome
  simp only [find_esp32_port_rpi, GPIO_UART_ENABLE, Bool.false_and, Bool.false_eq_true, if_false]
  rw [priorityScan_eq_find, hcong, hp₀]

/-- `serial_monitor.find_esp32_port` (no GPIO UART node): same priority
property over its USB tail `priority_ports[1:]`. -/
theorem find_mon_priority (ports ports' : List PortInfo)
    (hex : ∃ p ∈ priority_ports_mon.drop 1, present ports p = true)
    (hperm : List.Perm ports ports') :
    find_esp32_port false ports' = (priority_ports_mon.drop 1).find? (present ports) := by
  have hcong : (priority_ports_mon.drop 1).find? (present ports')
      = (priority_ports_mon.drop 1).find? (present ports) :=
    find?_congr _ _ _ (fun x _ => (present_perm hperm x).symm)
  have hsome : ((priority_ports_mon.drop 1).find? (present ports)).isSome := by
    obtain ⟨p, hp, hpres⟩ := hex
    exact List.find?_isSome.mpr ⟨p, hp, hpres⟩
  obtain ⟨p₀, hp₀⟩ := Option.isSome_iff_exists.mp hsome
  simp only [find_esp32_port, Bool.false_eq_true, if_false]
  rw [priorityScan_eq_find, hcong, hp₀]

/-- **C9.** With the GPIO UART shortcut not applying (the configuration
constant `GPIO_UART_ENABLE = False`, resp. no `/dev/ttyS0` node for the
monitor): whenever the enumerated endpoint list contains at least one path
of the fixed priority list, both discovery functions return the
highest-priority listed path present, for every permutation of the
enumeration (so the result does not depend on enumeration order); and on an
empty enumeration both return `None`. -/
theorem claim_C9_discovery (g : Bool) (ports ports' : List PortInfo)
    (hperm : List.Perm ports ports') :
    ((∃ p ∈ priority_ports_rpi, present ports p = true) →
        find_esp32_port_rpi GPIO_UART_ENABLE g ports'
          = priority_ports_rpi.find? (present ports)
        ∧ (priority_ports_rpi.find? (present ports)).isSome = true)
    ∧ find_esp32_port_rpi GPIO_UART_ENABLE g [] = none
    ∧ ((∃ p ∈ priority_ports_mon.drop 1, present ports p = true) →
        find_esp32_port false ports'
          = (priority_ports_mon.drop 1).find? (present ports)
        ∧ ((priority_ports_mon.drop 1).find? (present ports)).isSome = true)
    ∧ find_esp32_port false [] = none := by
  refine ⟨fun hex => ⟨find_rpi_priority g ports ports' hex hperm, ?_⟩,
    by cases g <;> decide,
    fun hex => ⟨find_mon_priority ports ports' hex hperm, ?_⟩,
    by decide⟩
  · obtain ⟨p, hp, hpres⟩ := hex
    exact List.find?_isSome.mpr ⟨p, hp, hpres⟩
  · obtain ⟨p, hp, hpres⟩ := hex
    exact List.find?_isSome.mpr ⟨p, hp, hpres⟩

/-- Witness for C9: enumerating `[ttyACM0, ttyUSB0]` — the reverse of the
priority order — still selects `/dev/ttyUSB0`, in both discovery
functions. -/
theorem claim_C9_witness :
    find_esp32_port_rpi GPIO_UART_ENABLE false
        [⟨"/dev/ttyACM0", "", ""⟩, ⟨"/dev/ttyUSB0", "", ""⟩]
      = some "/dev/ttyUSB0"
    ∧ find_esp32_port false [⟨"/dev/ttyACM0", "", ""⟩, ⟨"/dev/ttyUSB0", "", ""⟩]
      = some "/dev/ttyUSB0" := by
  have h := claim_C9_discovery false
    [⟨"/dev/ttyUSB0", "", ""⟩, ⟨"/dev/ttyACM0", "", ""⟩]
    [⟨"/dev/ttyACM0", "", ""⟩, ⟨"/dev/ttyUSB0", "", ""⟩]
    (List.Perm.swap _ _ _)
  have h1 := (h.1 ⟨"/dev/ttyUSB0", by decide, by decide⟩).1
  have h2 := (h.2.2.1 ⟨"/dev/ttyUSB0", by decide, by decide⟩).1
  rw [h1, h2]
  exact ⟨by decide, by decide⟩

/-- `dict.get` finds a key at the head of the object. -/
theorem jlookup_cons_self (k : String) (v : JVal) (obj : List (String × JVal)) :
    jlookup ((k, v) :: obj) k = some v := by
  simp [jlookup]

/-- `dict.get` skips a head entry with a different key. -/
theorem jlookup_cons_ne (k k' : String) (v : JVal) (obj : List (String × JVal))
    (h : (k == k') = false) :
    jlookup ((k, v) :: obj) k' = jlookup obj k' := by
  simp [jlookup, List.find?_cons_of_neg, h]

/-- **C10.** `send_to_robot` fills missing JSON keys with defaults instead of
erroring: for every object, a missing `command` key encodes exactly like an
explicit `"command": "STOP"`, a missing `value` like `"value": 0`, a missing
`unit` like `"unit": "none"` (last three conjuncts); hence the empty object
`{}` is accepted — the call returns `True` — and transmits exactly
`STOP,0,none\n`. -/
theorem claim_C10_json_defaults :
    encodeJson [] = "STOP,0,none\n"
    ∧ (sendToRobot ⟨true, "/dev/ttyUSB0"⟩ (some []) true true
        (fun _ => none) (fun _ => none) 100).1 = true
    ∧ (sendToRobot ⟨true, "/dev/ttyUSB0"⟩ (some []) true true
        (fun _ => none) (fun _ => none) 100).2.1
        = [Ev.wrote "STOP,0,none\n", Ev.flushed]
    ∧ (∀ obj, jlookup obj "command" = none →
        encodeJson obj = encodeJson (("command", JVal.jstr "STOP") :: obj))
    ∧ (∀ obj, jlookup obj "value" = none →
        encodeJson obj = encodeJson (("value", JVal.jint 0) :: obj))
    ∧ (∀ obj, jlookup obj "unit" = none →
        encodeJson obj = encodeJson (("unit", JVal.jstr "none") :: obj)) := by
  refine ⟨by decide, by decide, by decide, ?_, ?_, ?_⟩
  · intro obj h
    rw [encodeJson, encodeJson, jlookup_cons_self,
      jlookup_cons_ne "command" "value" _ _ (by decide),
      jlookup_cons_ne "command" "unit" _ _ (by decide), h]
    rfl
  · intro obj h
    rw [encodeJson, encodeJson, jlookup_cons_self,
      jlookup_cons_ne "value" "command" _ _ (by decide),
      jlookup_cons_ne "value" "unit" _ _ (by decide), h]
    rfl
  · intro obj h
    rw [encodeJson, encodeJson, jlookup_cons_self,
      jlookup_cons_ne "unit" "command" _ _ (by decide),
      jlookup_cons_ne "unit" "value" _ _ (by decide), h]
    rfl

/-- Witness for C10: an object carrying only a `value` key encodes exactly
like the same object with the default `"command": "STOP"` added. -/
theorem claim_C10_witness :
    encodeJson [("value", JVal.jint 7)]
      = encodeJson [("command", JVal.jstr "STOP"), ("value", JVal.jint 7)] := by
  exact claim_C10_json_defaults.2.2.2.1 [("value", JVal.jint 7)] (by decide)
